import Mathlib

/-!
Verification of the rfidisk daemon (src/rfidisk.py) against its
natural-language specification.

The Python daemon is shallowly embedded: every operation becomes a pure
Lean function from an explicit `DaemonState` (the `RFIDLauncher` instance
fields plus the two /dev/shm files it owns) and an `Env` (the outcomes of
the operating-system calls the code makes: registry contents returned by
`load_config`, process liveness reported by `poll`, success of
`subprocess.Popen`, serial open/read/write outcomes) to a new state plus a
list of observable `Effect`s (notifications, launches, signals, serial and
file writes, sleeps).

Python string operations are embedded on `List Char` (Python slices,
`strip`, `split` and `lower` all operate on characters), so every
definition is executable and decidable on concrete inputs.
-/

/-- Character class of Python's `str.strip()` default whitespace
(space, tab, newline, carriage return, vertical tab, form feed). -/
def isPySpace (c : Char) : Bool :=
  c = ' ' || c = '\t' || c = '\n' || c = '\r' || c = Char.ofNat 11 || c = Char.ofNat 12

/-- Python `str.strip()` on a character list. -/
def pyStripL (l : List Char) : List Char :=
  ((l.dropWhile isPySpace).reverse.dropWhile isPySpace).reverse

/-- Python `str.strip()`. -/
def pyStrip (s : String) : String :=
  ⟨pyStripL s.data⟩

/-- Python `str.split('\n')` on a character list: split at every newline,
never collapsing, with `[[]]` for the empty string. -/
def pySplitL : List Char → List (List Char)
  | [] => [[]]
  | c :: cs =>
    if c = '\n' then [] :: pySplitL cs
    else
      match pySplitL cs with
      | [] => [[c]]
      | l :: ls => (c :: l) :: ls

/-- Python `str.split('\n')`. -/
def pySplit (s : String) : List String :=
  (pySplitL s.data).map (fun l => ⟨l⟩)

/-- Python slicing `s[:n]` (by characters). -/
def pyTake (s : String) (n : Nat) : String :=
  ⟨s.data.take n⟩

/-- Python slicing `s[n:]` (by characters). -/
def pyDrop (s : String) (n : Nat) : String :=
  ⟨s.data.drop n⟩

/-- Python `str.startswith(pre)`. -/
def pyStartsWith (s pre : String) : Bool :=
  s.data.take pre.data.length = pre.data

/-- Python `str.lower()` (the tag ids the daemon sees are ASCII). -/
def pyLower (s : String) : String :=
  ⟨s.data.map Char.toLower⟩

/-- Python `str.replace(a, b)` for single characters; the daemon uses it
as `line.replace('|', '_')`. -/
def pyReplaceChar (s : String) (a b : Char) : String :=
  ⟨s.data.map (fun c => if c = a then b else c)⟩

/-- VERSION constant of rfidisk.py. -/
def VERSION : String := "0.95"

/-- One entry of rfidisk_tags.json; `load_config` defaults every absent
field to the empty string (`tag_config.get(..., "")`). -/
structure TagConfig where
  command : String
  line1 : String
  line2 : String
  line3 : String
  line4 : String
  terminate : String
deriving Repr, DecidableEq

/-- TagConfig with every field empty: Python's `{}` fallback under the
`.get(key, "")` accesses the daemon performs. -/
def emptyTagConfig : TagConfig :=
  ⟨"", "", "", "", "", ""⟩

/-- The settings document of rfidisk_config.json (the keys the daemon
reads). `removalDelay` only gates a sleep, so its numeric value is kept
abstract as a Nat. -/
structure Config where
  serialPort : String
  removalDelay : Nat
  desktopNotifications : Bool
  notificationTimeout : Nat
  autoLaunchManager : Bool
  disableAutolaunch : Bool
deriving Repr, DecidableEq

/-- The default settings of rfidisk.py. -/
def defaultConfig : Config :=
  { serialPort := "/dev/ACM0"
    removalDelay := 0
    desktopNotifications := true
    notificationTimeout := 8000
    autoLaunchManager := true
    disableAutolaunch := false }

/-- The default tags dictionary of rfidisk.py (the "example" entry). -/
def defaultTags : List (String × TagConfig) :=
  [("example",
    { command := ""
      line1 := "Example Tag"
      line2 := "Configure me"
      line3 := "Edit rfidisk_tags.json"
      line4 := "example"
      terminate := "" })]

/-- Python `tags.get(tag_id)`: first binding of the id in the registry. -/
def lookupTag (tags : List (String × TagConfig)) (id : String) : Option TagConfig :=
  (tags.find? (fun p => p.1 = id)).map (fun p => p.2)

/-- The mutable fields of the `RFIDLauncher` instance, plus the contents
of the two /dev/shm files it owns (`sharedFile` = /dev/shm/rfidisk,
`loadFile` = /dev/shm/rfidisk-load), plus the two loop counters of
`run`. `serialConn = some ()` models an open pyserial handle. -/
structure DaemonState where
  cfg : Config
  tags : List (String × TagConfig)
  serialConn : Option Unit
  activeTag : Option String
  activeProcess : Option Nat
  processTreePids : List Nat
  running : Bool
  lastUnknownTag : Option String
  serialErrorCount : Nat
  maxSerialErrors : Nat
  reconnecting : Bool
  lastDisplayState : String × String × String × String
  appLaunchedByUs : Bool
  recoveryMode : Bool
  pendingLoadCommand : Option String
  sharedFile : String
  loadFile : String
  processCheckCounter : Nat
  loadCheckCounter : Nat
deriving Repr, DecidableEq

/-- `RFIDLauncher.__init__` (files not yet created; the shared-file
contents before `create_shared_files` are immaterial and start empty). -/
def initialState : DaemonState :=
  { cfg := defaultConfig
    tags := defaultTags
    serialConn := none
    activeTag := none
    activeProcess := none
    processTreePids := []
    running := true
    lastUnknownTag := none
    serialErrorCount := 0
    maxSerialErrors := 5
    reconnecting := false
    lastDisplayState := ("Ready", "Insert Disk", "", "RFIDisk v" ++ VERSION)
    appLaunchedByUs := false
    recoveryMode := false
    pendingLoadCommand := none
    sharedFile := ""
    loadFile := ""
    processCheckCounter := 0
    loadCheckCounter := 0 }

/-- Outcomes of the operating-system interactions a daemon operation may
perform: what `load_config()` returns when re-read, process liveness and
process-group existence oracles, `subprocess.Popen` success, the pid the
spawn produces, serial-port outcomes and the pending serial line. -/
structure Env where
  cfg : Config
  registry : List (String × TagConfig)
  alive : Nat → Bool
  pgidExists : Nat → Bool
  aliveAfterTerm : Nat → Bool
  spawnOk : Bool
  freshPid : Nat
  processTree : List Nat
  managerOk : Bool
  notifySendAvailable : Bool
  serialOk : Bool
  openOk : Bool
  readOk : Bool
  incoming : Option String

/-- Observable actions of the daemon. Sleeps that the claims mention are
kept as markers; purely internal sleeps (the 2.5 s settle inside
`connect_serial`, the 1 s tree-snapshot delay) carry no observable
behavior and are represented the same way. -/
inductive Effect where
  | notify (title message : String)
  | launch (command : String) (pid : Nat)
  | customTerminate (command : String)
  | sigtermGroup (pid : Nat)
  | sigkillGroup (pid : Nat)
  | serialWrite (line : String)
  | sharedFileWrite (content : String)
  | loadFileWrite (content : String)
  | launchManager (tagId : String)
  | reconnectTriggered
  | sleepRemovalDelay
  | sleepReconnectBackoff
  | sleepSettle
  | sleepAppSwitch
  | sleepCustomTerminate
  | sleepLaunch
deriving Repr, DecidableEq

/-- Python truthiness of `self.active_tag` (None and the empty string are
falsy). -/
def optStrTruthy : Option String → Bool
  | none => false
  | some s => !(s = "")

/-- Effect classifiers used to state "zero notification calls", "zero new
launch calls" and "exactly one display re-publish". -/
def isNotifyEffect : Effect → Bool
  | .notify _ _ => true
  | _ => false

def isLaunchEffect : Effect → Bool
  | .launch _ _ => true
  | _ => false

def isSerialWriteEffect : Effect → Bool
  | .serialWrite _ => true
  | _ => false

def isSharedWriteEffect : Effect → Bool
  | .sharedFileWrite _ => true
  | _ => false

def notifyCount (l : List Effect) : Nat :=
  (l.filter isNotifyEffect).length

def launchCount (l : List Effect) : Nat :=
  (l.filter isLaunchEffect).length

def serialWriteCount (l : List Effect) : Nat :=
  (l.filter isSerialWriteEffect).length

def sharedWriteCount (l : List Effect) : Nat :=
  (l.filter isSharedWriteEffect).length

/-- `RFIDLauncher.get_icon_type`. -/
def getIconType (command : String) : String :=
  if pyStartsWith (pyLower command) "steam" then "2"
  else if !(pyStrip command = "") then "1"
  else "0"

/-- `RFIDLauncher.send_desktop_notification`: suppressed during recovery
or reconnection, by configuration, or when notify-send is absent.
State is never modified; only the effect is produced. -/
def sendDesktopNotification (s : DaemonState) (env : Env)
    (title message : String) : List Effect :=
  if s.recoveryMode || s.reconnecting then []
  else if !s.cfg.desktopNotifications then []
  else if !env.notifySendAvailable then []
  else [Effect.notify title message]

/-- `RFIDLauncher.update_shared_file` composed into
`RFIDLauncher.send_display_command`: records `last_display_state`, always
overwrites the shared display file with the raw
`line1|line2|line3|line4`, then truncates (20/20/14/14 characters),
escapes pipe characters to underscores and writes the
`D|...|iconType\n` line to the serial link. A write failure (or an
unhealthy link) triggers `reconnect_serial` in the source; the nested
reconnect cycle is represented by the `reconnectTriggered` marker and
modeled at top level by `reconnectSerial`. -/
def sendDisplayCommand (s : DaemonState) (env : Env)
    (line1 line2 line3 line4 iconType : String) : DaemonState × List Effect :=
  let s := { s with lastDisplayState := (line1, line2, line3, line4) }
  let shared := line1 ++ "|" ++ line2 ++ "|" ++ line3 ++ "|" ++ line4
  let s := { s with sharedFile := shared }
  let line1t := pyTake line1 20
  let line2t := pyTake line2 20
  let line3t := pyTake line3 14
  let line4t := pyTake line4 14
  if env.serialOk then
    let e1 := pyReplaceChar line1t '|' '_'
    let e2 := pyReplaceChar line2t '|' '_'
    let e3 := pyReplaceChar line3t '|' '_'
    let e4 := pyReplaceChar line4t '|' '_'
    let wire := "D|" ++ e1 ++ "|" ++ e2 ++ "|" ++ e3 ++ "|" ++ e4 ++ "|" ++ iconType ++ "\n"
    (s, [Effect.sharedFileWrite shared, Effect.serialWrite wire])
  else
    (s, [Effect.sharedFileWrite shared, Effect.reconnectTriggered])

/-- `RFIDLauncher.is_process_running`: `poll() is None` on the owned
handle, false when no handle is owned. -/
def isProcessRunning (s : DaemonState) (env : Env) : Bool :=
  match s.activeProcess with
  | none => false
  | some pid => env.alive pid

/-- `RFIDLauncher.launch_application`: refuses when a launch is already
owned (truthy active tag), otherwise notifies first, then spawns the
command in its own process group, marks ownership and snapshots the
descendant tree after a 1 s sleep. A spawn failure sends an error
notification and leaves the state unchanged. -/
def launchApplication (s : DaemonState) (env : Env)
    (appCommand tagLine1 tagLine2 : String) : DaemonState × List Effect :=
  if s.appLaunchedByUs && optStrTruthy s.activeTag then
    (s, [])
  else
    let n := sendDesktopNotification s env "RFIDisk Inserted" (tagLine1 ++ "\n" ++ tagLine2)
    if env.spawnOk then
      let s := { s with
        activeProcess := some env.freshPid
        appLaunchedByUs := true
        processTreePids := env.processTree }
      (s, n ++ [Effect.launch appCommand env.freshPid, Effect.sleepLaunch])
    else
      (s, n ++ sendDesktopNotification s env "Error" ("Failed: " ++ tagLine1))

/-- `RFIDLauncher.terminate_standard`: returns immediately when no
process handle is owned (clearing nothing); otherwise SIGTERM to the
process group, 2 s grace, SIGKILL if the leader is still alive, a missing
group (ProcessLookupError) treated as already dead, and in the `finally`
block the handle, the pid snapshot and the ownership flag are cleared. -/
def terminateStandard (s : DaemonState) (env : Env) : DaemonState × List Effect :=
  match s.activeProcess with
  | none => (s, [])
  | some pid =>
    let effs :=
      if env.pgidExists pid then
        if env.aliveAfterTerm pid then
          [Effect.sigtermGroup pid, Effect.sigkillGroup pid]
        else
          [Effect.sigtermGroup pid]
      else []
    ({ s with activeProcess := none, processTreePids := [], appLaunchedByUs := false }, effs)

/-- `RFIDLauncher.terminate_application`: a non-empty (stripped) custom
terminate command is spawned fire-and-forget with a 2 s wait; only when
that spawn itself fails does the standard method run. Note the custom
success path does not touch the handle or the ownership flag. -/
def terminateApplication (s : DaemonState) (env : Env)
    (tagConfig : TagConfig) : DaemonState × List Effect :=
  let terminateCommand := pyStrip tagConfig.terminate
  if !(terminateCommand = "") then
    if env.spawnOk then
      (s, [Effect.customTerminate terminateCommand, Effect.sleepCustomTerminate])
    else
      terminateStandard s env
  else
    terminateStandard s env

/-- `RFIDLauncher.close_current_app`: no-op when the active tag is falsy
(None or empty); otherwise terminates via the active tag's config
(missing registry entry degrading to the empty config) and clears the
ownership flag. -/
def closeCurrentApp (s : DaemonState) (env : Env) : DaemonState × List Effect :=
  if !optStrTruthy s.activeTag then
    (s, [])
  else
    let tagConfig := (lookupTag s.tags (s.activeTag.getD "")).getD emptyTagConfig
    let t := terminateApplication s env tagConfig
    ({ t.1 with appLaunchedByUs := false }, t.2)

/-- `RFIDLauncher.create_or_update_new_entry`: rename an existing
placeholder entry (line1 = "new entry") to the new id, or append a fresh
placeholder; the registry is then persisted. -/
def createOrUpdateNewEntry (tags : List (String × TagConfig)) (tagId : String) :
    List (String × TagConfig) :=
  match tags.find? (fun p => p.2.line1 = "new entry") with
  | some (oldId, entry) =>
    if !(oldId = tagId) then
      (tags.filter (fun p => !(p.1 = oldId))) ++ [(tagId, entry)]
    else tags
  | none =>
    tags ++ [(tagId,
      { command := ""
        line1 := "new entry"
        line2 := "configure me"
        line3 := "edit rfidisk_tags.json"
        line4 := tagId
        terminate := "" })]

/-- `RFIDLauncher.write_load_command`. -/
def writeLoadCommand (s : DaemonState) (command : String) : DaemonState × List Effect :=
  ({ s with loadFile := command, pendingLoadCommand := some command },
   [Effect.loadFileWrite command])

/-- `RFIDLauncher.clear_load_command`. -/
def clearLoadCommand (s : DaemonState) : DaemonState × List Effect :=
  ({ s with loadFile := "", pendingLoadCommand := none },
   [Effect.loadFileWrite ""])

/-- The pure content transformation of `RFIDLauncher.check_load_command`:
strip the file, split on newlines; when line 2 is the literal TRIGGER the
command of line 1 is returned (stripped) and the file is rewritten to
just the command, otherwise nothing is returned and the file is left as
it was. -/
def checkLoadCommandFile (content : String) : Option String × String :=
  let lines := pySplit (pyStrip content)
  if 2 ≤ lines.length && (lines.getD 1 "") = "TRIGGER" then
    let command := pyStrip (lines.getD 0 "")
    (some command, command)
  else
    (none, content)

/-- `RFIDLauncher.check_load_command` acting on the daemon state. -/
def checkLoadCommand (s : DaemonState) : Option String × DaemonState × List Effect :=
  let r := checkLoadCommandFile s.loadFile
  match r.1 with
  | some command =>
    (some command, { s with loadFile := r.2 }, [Effect.loadFileWrite r.2])
  | none => (none, s, [])

/-- `handle_load_command` (the --load CLI invocation) as a transformation
of the load-file content: append a TRIGGER line when a stripped command
is present, else leave the file alone and fail. The daemon keeps the file
existing for the CLI's os.path.exists check. -/
def handleLoadCommand (content : String) : String × Bool :=
  let currentContent := pyStrip content
  if !(currentContent = "") then
    (currentContent ++ "\nTRIGGER", true)
  else
    (content, false)

/-- `RFIDLauncher.recover_after_disconnection`: sets recovery mode, and
with a truthy active tag that was launched by us reloads the registry and
silently re-publishes that tag's display lines with a recomputed icon
(State Error display if the entry vanished); otherwise clears the active
tag and ownership flag and publishes the idle display. Recovery mode is
cleared on exit. -/
def recoverAfterDisconnection (s : DaemonState) (env : Env) : DaemonState × List Effect :=
  let s := { s with recoveryMode := true }
  if optStrTruthy s.activeTag && s.appLaunchedByUs then
    let tagId := s.activeTag.getD ""
    let s := { s with cfg := env.cfg, tags := env.registry }
    match lookupTag s.tags tagId with
    | some tagConfig =>
      let iconType := getIconType tagConfig.command
      let d := sendDisplayCommand s env
        tagConfig.line1 tagConfig.line2 tagConfig.line3 tagConfig.line4 iconType
      ({ d.1 with recoveryMode := false }, d.2)
    | none =>
      let d := sendDisplayCommand s env
        "State Error" "Tag config missing" "Check rfidisk_tags.json" tagId "0"
      ({ d.1 with recoveryMode := false }, d.2)
  else
    let s := { s with activeTag := none, appLaunchedByUs := false }
    let d := sendDisplayCommand s env
      "Ready" "Insert Disk" "" ("RFIDisk v" ++ VERSION) "0"
    ({ d.1 with recoveryMode := false }, d.2)

/-- The shared display file contents `create_shared_files` writes. -/
def readyShared : String := "Ready|Insert Disk||RFIDisk v" ++ VERSION

/-- `RFIDLauncher.create_shared_files`: the display file gets the Ready
text, the load file is emptied. -/
def createSharedFiles (s : DaemonState) : DaemonState × List Effect :=
  ({ s with sharedFile := readyShared, loadFile := "" },
   [Effect.sharedFileWrite readyShared, Effect.loadFileWrite ""])

/-- `RFIDLauncher.connect_serial`: on a successful open the error counter
resets, the shared files are rewritten, and if this was a reconnection
the recovery controller runs once after a 0.5 s settle delay before the
reconnecting flag clears. The handshake branch with an OK token and the
3 s timeout branch without one perform exactly this same sequence, so
they are modeled as one success path. Failure clears the handle. -/
def connectSerial (s : DaemonState) (env : Env) : Bool × DaemonState × List Effect :=
  if env.openOk then
    let s := { s with serialConn := some (), serialErrorCount := 0 }
    let c := createSharedFiles s
    let s := c.1
    if s.reconnecting then
      let r := recoverAfterDisconnection s env
      (true, { r.1 with reconnecting := false }, c.2 ++ Effect.sleepSettle :: r.2)
    else
      (true, s, c.2)
  else
    (false, { s with serialConn := none }, [])

/-- `RFIDLauncher.reconnect_serial`: bump the error counter, raise the
reconnecting flag, give up (returning failure with nothing else done)
once the counter passes `max_serial_errors`; otherwise close the handle,
sleep 2 s and retry `connect_serial`. -/
def reconnectSerial (s : DaemonState) (env : Env) : Bool × DaemonState × List Effect :=
  let s := { s with serialErrorCount := s.serialErrorCount + 1, reconnecting := true }
  if s.maxSerialErrors < s.serialErrorCount then
    (false, s, [])
  else
    let s := { s with serialConn := none }
    let c := connectSerial s env
    (c.1, c.2.1, Effect.sleepReconnectBackoff :: c.2.2)

/-- The known-tag sub-branch of `process_serial_data`: close a different
previous app first (with a 0.5 s settle), set the active tag, publish the
tag's lines with the derived icon, then: empty command → configuration
displays and manager hand-off; non-empty command and nothing owned →
defer to the load bridge when autolaunch is disabled, else launch;
already owned → display only. -/
def handleKnownTag (s : DaemonState) (env : Env) (tagId : String)
    (tagConfig : TagConfig) : DaemonState × List Effect :=
  let closeStep :=
    if s.activeProcess.isSome && !(s.activeTag = some tagId) then
      let c := closeCurrentApp s env
      (c.1, c.2 ++ [Effect.sleepAppSwitch])
    else (s, [])
  let s := closeStep.1
  let closeEffs := closeStep.2
  let s := { s with activeTag := some tagId }
  let iconType := getIconType tagConfig.command
  let dispStep := sendDisplayCommand s env
    tagConfig.line1 tagConfig.line2 tagConfig.line3 tagConfig.line4 iconType
  let s := dispStep.1
  let dispEffs := dispStep.2
  let command := pyStrip tagConfig.command
  if command = "" then
    let d2Step := sendDisplayCommand s env
      "Please configure" "Tag (executable" "not found)" tagId "0"
    let s := d2Step.1
    if s.cfg.autoLaunchManager && env.managerOk then
      let n := sendDesktopNotification s env "Configuration Required"
        ("Please configure tag " ++ tagId ++ "\n(executable not found)")
      (s, closeEffs ++ dispEffs ++ d2Step.2 ++ Effect.launchManager tagId :: n)
    else
      let d3Step := sendDisplayCommand s env
        "Config Error" "Manager not found" "Edit manually:" tagId "0"
      (d3Step.1, closeEffs ++ dispEffs ++ d2Step.2 ++ d3Step.2)
  else if !s.appLaunchedByUs then
    if s.cfg.disableAutolaunch then
      let wStep := writeLoadCommand s command
      let n := sendDesktopNotification wStep.1 env "RFIDisk Ready"
        (tagConfig.line1 ++ " ready\nUse rfidisk.py --load to launch")
      (wStep.1, closeEffs ++ dispEffs ++ wStep.2 ++ n)
    else
      let lStep := launchApplication s env tagConfig.command tagConfig.line1 tagConfig.line2
      (lStep.1, closeEffs ++ dispEffs ++ lStep.2)
  else
    (s, closeEffs ++ dispEffs)

/-- The unknown-tag sub-branch of `process_serial_data`: placeholder
creation, persist, configuration display, manager hand-off. -/
def handleUnknownTag (s : DaemonState) (env : Env) (tagId : String) :
    DaemonState × List Effect :=
  let s := { s with activeTag := some tagId, lastUnknownTag := some tagId }
  let s := { s with tags := createOrUpdateNewEntry s.tags tagId }
  let d1Step := sendDisplayCommand s env
    "new tag detected" "launching config" "please wait..." tagId "0"
  let s := d1Step.1
  if s.cfg.autoLaunchManager && env.managerOk then
    let n := sendDesktopNotification s env "New Tag" ("Configuring tag " ++ tagId)
    (s, d1Step.2 ++ Effect.launchManager tagId :: n)
  else
    let d2Step := sendDisplayCommand s env
      "new entry" "configure me" "edit rfidisk_tags.json" tagId "0"
    let n := sendDesktopNotification d2Step.1 env "New Tag"
      ("Tag " ++ tagId ++ " added - configure manually")
    (d2Step.1, d1Step.2 ++ d2Step.2 ++ n)

/-- The ON: branch of `process_serial_data`: duplicate-insertion no-op
when the same owned tag's process is still alive, registry reload, then
the known-tag or unknown-tag handling. -/
def handleInsert (s : DaemonState) (env : Env) (tagId : String) :
    DaemonState × List Effect :=
  if s.activeTag = some tagId && s.appLaunchedByUs && isProcessRunning s env then
    (s, [])
  else
    let s := { s with cfg := env.cfg, tags := env.registry }
    match lookupTag s.tags tagId with
    | some tagConfig => handleKnownTag s env tagId tagConfig
    | none => handleUnknownTag s env tagId

/-- The OF: branch of `process_serial_data`: only the active tag is
acted on; debounce sleep, re-check, terminate, clear the active tag,
clear the load bridge, publish the idle display. The debounce sleep is a
plain `time.sleep` inside the single daemon thread, so no state change
can occur between the sleep and the re-check; the model reflects that by
evaluating the re-check on the unchanged state. -/
def handleRemove (s : DaemonState) (env : Env) (tagId : String) :
    DaemonState × List Effect :=
  if some tagId = s.activeTag then
    if s.activeTag = some tagId then
      let tStep := closeCurrentApp s env
      let s := { tStep.1 with activeTag := none }
      let cStep := clearLoadCommand s
      let dStep := sendDisplayCommand cStep.1 env
        "Ready" "Insert Disk" "" ("RFIDisk v" ++ VERSION) "0"
      (dStep.1, Effect.sleepRemovalDelay :: (tStep.2 ++ cStep.2 ++ dStep.2))
    else
      (s, [Effect.sleepRemovalDelay])
  else (s, [])

/-- `RFIDLauncher.process_serial_data`: events are ignored wholesale
while reconnecting; ON: and OF: lines are dispatched on the lowercased,
stripped tag id. -/
def processSerialData (s : DaemonState) (env : Env) (data : String) :
    DaemonState × List Effect :=
  if s.reconnecting then (s, [])
  else if pyStartsWith data "ON:" then
    handleInsert s env (pyLower (pyStrip (pyDrop data 3)))
  else if pyStartsWith data "OF:" then
    handleRemove s env (pyLower (pyStrip (pyDrop data 3)))
  else (s, [])

/-- `RFIDLauncher.read_serial`: reconnect when the handle is gone,
otherwise attempt a non-blocking line read; a successful non-empty line
resets the error counter, a read error triggers a reconnect and yields
nothing this cycle. -/
def readSerial (s : DaemonState) (env : Env) :
    Option String × DaemonState × List Effect :=
  let tryRead := fun (s : DaemonState) (acc : List Effect) =>
    if env.readOk then
      match env.incoming with
      | some d =>
        if !(d = "") then (some d, { s with serialErrorCount := 0 }, acc)
        else (none, s, acc)
      | none => (none, s, acc)
    else
      let r := reconnectSerial s env
      (none, r.2.1, acc ++ r.2.2)
  if s.serialConn = none then
    let r := reconnectSerial s env
    if r.1 then tryRead r.2.1 r.2.2 else (none, r.2.1, r.2.2)
  else
    tryRead s []

/-- The every-2-seconds ownership liveness check of `RFIDLauncher.run`:
when the owned process exited on its own, the ownership flag, the handle
and the pid snapshot are cleared without terminating anything. -/
def livenessCheck (s : DaemonState) (env : Env) : DaemonState :=
  let s := { s with processCheckCounter := s.processCheckCounter + 1 }
  if 20 ≤ s.processCheckCounter then
    let s := { s with processCheckCounter := 0 }
    if s.appLaunchedByUs && s.activeProcess.isSome && !isProcessRunning s env then
      { s with appLaunchedByUs := false, activeProcess := none, processTreePids := [] }
    else s
  else s

/-- The every-1-second load-bridge poll of `RFIDLauncher.run`: consume a
TRIGGER via `check_load_command` (which already rewrote the file), and
launch only when a truthy tag is active and nothing is owned. -/
def loadCheckStep (s : DaemonState) (env : Env) : DaemonState × List Effect :=
  let s := { s with loadCheckCounter := s.loadCheckCounter + 1 }
  if 10 ≤ s.loadCheckCounter then
    let s := { s with loadCheckCounter := 0 }
    let c := checkLoadCommand s
    match c.1 with
    | some loadCommand =>
      let s := c.2.1
      if !(loadCommand = "") && optStrTruthy s.activeTag && !s.appLaunchedByUs then
        let tagConfig := (lookupTag s.tags (s.activeTag.getD "")).getD emptyTagConfig
        let lStep := launchApplication s env loadCommand tagConfig.line1 tagConfig.line2
        (lStep.1, c.2.2 ++ lStep.2)
      else (s, c.2.2)
    | none => (c.2.1, c.2.2)
  else (s, [])

/-- One iteration of the main loop of `RFIDLauncher.run`: serial read,
event dispatch, liveness check, load-bridge check, 100 ms sleep. Nothing
in the loop body ever sets `running` to false; the loop leaves only via
KeyboardInterrupt or an external shutdown. -/
def runStep (s : DaemonState) (env : Env) : DaemonState × List Effect :=
  if !s.running then (s, [])
  else
    let rStep := readSerial s env
    let pStep :=
      match rStep.1 with
      | some d => processSerialData rStep.2.1 env d
      | none => (rStep.2.1, [])
    let s := livenessCheck pStep.1 env
    let lStep := loadCheckStep s env
    (lStep.1, rStep.2.2 ++ pStep.2 ++ lStep.2)

/-- Sequential processing of a list of serial lines, one per loop cycle,
exactly as `run` feeds them to `process_serial_data`. -/
def processEvents (s : DaemonState) (env : Env) (events : List String) :
    DaemonState × List Effect :=
  events.foldl
    (fun acc d =>
      let p := processSerialData acc.1 env d
      (p.1, acc.2 ++ p.2))
    (s, [])

/-- The spec's ownership invariant: `app_launched_by_us == true` implies
`process_handle != None` and `active_tag_id != None`. -/
abbrev launchInv (s : DaemonState) : Prop :=
  s.appLaunchedByUs = true → s.activeProcess ≠ none ∧ s.activeTag ≠ none

/-- The handle half of the ownership invariant. -/
abbrev ownInv (s : DaemonState) : Prop :=
  s.appLaunchedByUs = true → s.activeProcess ≠ none

/-! ### Concrete fixtures for witnesses and counterexamples -/

/-- A registry with one fully configured tag "x". -/
def tagsX : List (String × TagConfig) :=
  [("x", { command := "run", line1 := "L1", line2 := "L2", line3 := "L3",
           line4 := "x", terminate := "" })]

/-- A benign environment: everything succeeds, processes are alive, the
spawned pid is 43. -/
def baseEnv : Env :=
  { cfg := defaultConfig
    registry := tagsX
    alive := fun _ => true
    pgidExists := fun _ => true
    aliveAfterTerm := fun _ => false
    spawnOk := true
    freshPid := 43
    processTree := [43]
    managerOk := true
    notifySendAvailable := true
    serialOk := true
    openOk := true
    readOk := true
    incoming := none }

/-- A connected daemon right after startup. -/
def dispW : DaemonState :=
  { initialState with serialConn := some () }

/-- Environment for the display witness (healthy link). -/
def envW : Env := baseEnv

/-- Daemon owning a live process (pid 7) for active tag "x1". -/
def sC2 : DaemonState :=
  { initialState with
      serialConn := some ()
      activeTag := some "x1"
      activeProcess := some 7
      appLaunchedByUs := true
      tags := [("x1", { command := "run me", line1 := "L1", line2 := "L2",
                        line3 := "L3", line4 := "x1", terminate := "" })] }

/-- Environment for the idempotent-insert witness. -/
def envC2 : Env :=
  { baseEnv with registry := sC2.tags }

/-- Daemon owning a process (pid 42) for tag "x". -/
def sC3 : DaemonState :=
  { initialState with
      serialConn := some ()
      activeTag := some "x"
      activeProcess := some 42
      appLaunchedByUs := true
      tags := tagsX }

/-- A tag config carrying a non-empty custom terminate command. -/
def cfgC3 : TagConfig :=
  { command := "run", line1 := "L1", line2 := "L2", line3 := "L3",
    line4 := "x", terminate := "killcmd" }

/-- Environment where the custom terminate spawn succeeds. -/
def envC3 : Env := baseEnv

/-- Daemon owning a process for tag "x", used for the standard-path
witness of the amended C3. -/
def sC3b : DaemonState := sC3

/-- Daemon owning pid 42 for active tag "x", notifications configured
off so the C5 trace is minimal. -/
def sC5 : DaemonState :=
  { sC3 with cfg := { defaultConfig with desktopNotifications := false } }

/-- Environment for the debounce scenario: the registry still maps "x",
the fresh spawn yields pid 43, SIGTERM kills the group at once. -/
def envC5 : Env :=
  { baseEnv with cfg := { defaultConfig with desktopNotifications := false } }

/-- Daemon that has suffered 5 serial failures and lost its handle. -/
def sC4 : DaemonState :=
  { initialState with serialConn := none, serialErrorCount := 5 }

/-- Environment in which the serial port cannot be reopened. -/
def envC4 : Env :=
  { baseEnv with openOk := false }

/-- Daemon with no active tag but a triggered load file, on the poll
boundary. -/
def sC7 : DaemonState :=
  { initialState with
      serialConn := some ()
      loadFile := "echo hi\nTRIGGER"
      loadCheckCounter := 9 }

/-- Daemon with active tag "x", nothing owned, and a triggered load file
on the poll boundary (amended-C7 witness). -/
def sC7b : DaemonState :=
  { initialState with
      serialConn := some ()
      activeTag := some "x"
      tags := tagsX
      loadFile := "run\nTRIGGER"
      loadCheckCounter := 9
      cfg := { defaultConfig with desktopNotifications := false } }

/-- Environment for the load-trigger scenarios. -/
def envC7 : Env :=
  { baseEnv with cfg := { defaultConfig with desktopNotifications := false } }

/-- Daemon owning pid 43 for the empty-string active tag: the state
produced by inserting the serial line "ON:" when the registry maps the
empty id to a runnable command. -/
def sC8 : DaemonState :=
  { initialState with
      serialConn := some ()
      activeTag := some ""
      activeProcess := some 43
      appLaunchedByUs := true
      tags := [("", { command := "run", line1 := "L1", line2 := "L2",
                      line3 := "L3", line4 := "", terminate := "" })] }

/-- Environment for the invariant scenarios. -/
def envC8 : Env :=
  { baseEnv with registry := sC8.tags }

/-- Daemon mid-reconnect owning pid 42 for active tag "x". -/
def sC1 : DaemonState :=
  { sC3 with reconnecting := true }

/-- Environment for the recovery witness. -/
def envC1 : Env := baseEnv

/-- The registry entry envC1 holds for tag "x". -/
def cfgC1 : TagConfig :=
  { command := "run", line1 := "L1", line2 := "L2", line3 := "L3",
    line4 := "x", terminate := "" }

/-- Daemon mid-reconnect with a pending, not-yet-launched load command. -/
def sC9 : DaemonState :=
  { sC1 with appLaunchedByUs := true, loadFile := "run" }

/-- Environment for the connect witness. -/
def envC9 : Env := baseEnv

/-! ### Helper lemmas -/

/-- Both branches of `send_display_command` produce the same state: only
`last_display_state` and the shared display file change. -/
theorem sendDisplayCommand_state (s : DaemonState) (env : Env)
    (l1 l2 l3 l4 icon : String) :
    (sendDisplayCommand s env l1 l2 l3 l4 icon).1 =
      { s with lastDisplayState := (l1, l2, l3, l4),
               sharedFile := l1 ++ "|" ++ l2 ++ "|" ++ l3 ++ "|" ++ l4 } := by
  unfold sendDisplayCommand
  split <;> rfl

/-- The first effect of `send_display_command` is always the shared-file
overwrite with the raw, untruncated text, link healthy or not. -/
theorem sendDisplayCommand_sharedFirst (s : DaemonState) (env : Env)
    (l1 l2 l3 l4 icon : String) :
    ((sendDisplayCommand s env l1 l2 l3 l4 icon).2).head? =
      some (Effect.sharedFileWrite (l1 ++ "|" ++ l2 ++ "|" ++ l3 ++ "|" ++ l4)) := by
  unfold sendDisplayCommand
  split <;> rfl

/-- `send_display_command` never notifies and never launches. -/
theorem sendDisplayCommand_silent (s : DaemonState) (env : Env)
    (l1 l2 l3 l4 icon : String) :
    notifyCount (sendDisplayCommand s env l1 l2 l3 l4 icon).2 = 0 ∧
    launchCount (sendDisplayCommand s env l1 l2 l3 l4 icon).2 = 0 := by
  unfold sendDisplayCommand
  split <;> simp [notifyCount, launchCount, isNotifyEffect, isLaunchEffect]

/-! ### Claim C6 — display publishing -/

/-- Claim C6: for every publish call, with a healthy link the wire line is
exactly `D|line1|line2|line3|line4|icon` plus a newline with line1/line2
truncated to 20 characters, line3/line4 truncated to 14, and every pipe
character replaced by underscore; and regardless of link health the
shared display file is overwritten with the untruncated, unescaped
`line1|line2|line3|line4`. -/
theorem display_publish_format (s : DaemonState) (env : Env)
    (l1 l2 l3 l4 icon : String) :
    (env.serialOk = true →
      sendDisplayCommand s env l1 l2 l3 l4 icon =
        ({ s with lastDisplayState := (l1, l2, l3, l4),
                  sharedFile := l1 ++ "|" ++ l2 ++ "|" ++ l3 ++ "|" ++ l4 },
         [Effect.sharedFileWrite (l1 ++ "|" ++ l2 ++ "|" ++ l3 ++ "|" ++ l4),
          Effect.serialWrite ("D|" ++ pyReplaceChar (pyTake l1 20) '|' '_' ++ "|" ++
            pyReplaceChar (pyTake l2 20) '|' '_' ++ "|" ++
            pyReplaceChar (pyTake l3 14) '|' '_' ++ "|" ++
            pyReplaceChar (pyTake l4 14) '|' '_' ++ "|" ++ icon ++ "\n")])) ∧
    ((sendDisplayCommand s env l1 l2 l3 l4 icon).1.sharedFile =
      l1 ++ "|" ++ l2 ++ "|" ++ l3 ++ "|" ++ l4) ∧
    (((sendDisplayCommand s env l1 l2 l3 l4 icon).2).head? =
      some (Effect.sharedFileWrite (l1 ++ "|" ++ l2 ++ "|" ++ l3 ++ "|" ++ l4))) ∧
    (∀ c, c ∈ (pyReplaceChar (pyTake l1 20) '|' '_').data → c ≠ '|') := by
  refine ⟨fun hser => ?_, ?_, sendDisplayCommand_sharedFirst s env l1 l2 l3 l4 icon, ?_⟩
  · unfold sendDisplayCommand
    simp [hser]
  · rw [sendDisplayCommand_state]
  · intro c hc
    unfold pyReplaceChar at hc
    simp only [List.mem_map] at hc
    obtain ⟨a, _, ha⟩ := hc
    intro h
    by_cases hap : a = '|' <;> simp [hap] at ha <;> simp_all

/-- Witness for C6: the spec's own truncation test, a 30-character line1
containing pipes, sent with a healthy link. -/
theorem display_publish_format_witness :
    sendDisplayCommand dispW envW "abcdefghij|lmnopqrstuvwxyz0123" "b" "c" "d" "1" =
      ({ dispW with
          lastDisplayState := ("abcdefghij|lmnopqrstuvwxyz0123", "b", "c", "d"),
          sharedFile := "abcdefghij|lmnopqrstuvwxyz0123|b|c|d" },
       [Effect.sharedFileWrite "abcdefghij|lmnopqrstuvwxyz0123|b|c|d",
        Effect.serialWrite "D|abcdefghij_lmnopqrst|b|c|d|1\n"]) := by
  have h := (display_publish_format dispW envW
    "abcdefghij|lmnopqrstuvwxyz0123" "b" "c" "d" "1").1 (by decide)
  rw [h]
  decide

/-! ### Claim C2 — idempotent insertion -/

/-- Claim C2: while the active tag's process is owned and still alive and
the daemon is not reconnecting, a repeated Insert of that same tag is a
complete no-op — state unchanged, no effects at all (hence no launch and
no notification). -/
theorem insert_idempotent_when_owned_alive
    (s : DaemonState) (env : Env) (data : String)
    (hrec : s.reconnecting = false)
    (hstart : pyStartsWith data "ON:" = true)
    (htag : s.activeTag = some (pyLower (pyStrip (pyDrop data 3))))
    (happ : s.appLaunchedByUs = true)
    (halive : isProcessRunning s env = true) :
    processSerialData s env data = (s, []) := by
  unfold processSerialData handleInsert
  simp [hrec, hstart, htag, happ, halive]

/-- Witness for C2: tag "x1" owned and alive, device resends "ON:X1 ". -/
theorem insert_idempotent_when_owned_alive_witness :
    processSerialData sC2 envC2 "ON:X1 " = (sC2, []) :=
  insert_idempotent_when_owned_alive sC2 envC2 "ON:X1 "
    rfl (by decide) (by decide) rfl rfl

/-! ### Claim C3 — terminate clears ownership -/

/-- Counterexample to C3 as stated: with a non-empty custom terminate
command whose spawn succeeds, `terminate_application` exits with the
owned process handle still set (pid 42) and `app_launched_by_us` still
true — nothing is cleared on that path. -/
theorem terminate_custom_path_keeps_handle_cex :
    ¬ ((terminateApplication sC3 envC3 cfgC3).1.activeProcess = none ∧
       (terminateApplication sC3 envC3 cfgC3).1.appLaunchedByUs = false) := by
  decide

/-- Claim C3 as amended: the standard SIGTERM/SIGKILL path — taken
directly when no custom command is configured, or as fallback when the
custom spawn fails — clears the handle and the ownership flag whenever a
handle is owned, and is a no-op when none is; the custom-command success
path returns with the state fully unchanged (only the caller
`close_current_app` later clears the flag, never the handle). -/
theorem terminate_clears_state_paths (s : DaemonState) (env : Env)
    (tagConfig : TagConfig) :
    ((pyStrip tagConfig.terminate = "" ∨ env.spawnOk = false) →
      s.activeProcess ≠ none →
      (terminateApplication s env tagConfig).1.activeProcess = none ∧
      (terminateApplication s env tagConfig).1.appLaunchedByUs = false) ∧
    ((pyStrip tagConfig.terminate = "" ∨ env.spawnOk = false) →
      s.activeProcess = none →
      (terminateApplication s env tagConfig).1 = s) ∧
    (pyStrip tagConfig.terminate ≠ "" → env.spawnOk = true →
      terminateApplication s env tagConfig =
        (s, [Effect.customTerminate (pyStrip tagConfig.terminate),
             Effect.sleepCustomTerminate])) := by
  refine ⟨fun h hnp => ?_, fun h hp => ?_, fun hne hok => ?_⟩
  · cases hp : s.activeProcess with
    | none => exact absurd hp hnp
    | some pid =>
      rcases h with h | h <;>
        simp [terminateApplication, terminateStandard, h, hp]
  · rcases h with h | h <;>
      simp [terminateApplication, terminateStandard, h, hp]
  · simp [terminateApplication, hne, hok]

/-- Witness for the amended C3: standard path with an owned pid clears
both fields, and the custom-success path leaves the state untouched. -/
theorem terminate_clears_state_paths_witness :
    ((terminateApplication sC3b envC3 emptyTagConfig).1.activeProcess = none ∧
     (terminateApplication sC3b envC3 emptyTagConfig).1.appLaunchedByUs = false) ∧
    terminateApplication sC3 envC3 cfgC3 =
      (sC3, [Effect.customTerminate "killcmd", Effect.sleepCustomTerminate]) :=
  ⟨(terminate_clears_state_paths sC3b envC3 emptyTagConfig).1
      (Or.inl (by decide)) (by decide),
   (terminate_clears_state_paths sC3 envC3 cfgC3).2.2 (by decide) rfl⟩

/-! ### Claim C5 — removal debounce versus fast re-insertion -/

/-- Claim C5 evaluated on the code: the daemon is single-threaded, so the
debounce `time.sleep` inside the Remove handler blocks the loop and the
post-sleep re-check `active_tag == id` can never observe a change — an
`Insert(X)` arriving within the removal delay is only read on a later
loop cycle. Processing `Remove(x)` immediately followed by `Insert(x)`
therefore terminates the owned process (SIGTERM to group 42) and then
launches a fresh one (pid 43), contradicting the claim that the process
must not be terminated. -/
theorem remove_reinsert_terminates_process :
    (processEvents sC5 envC5 ["OF:x", "ON:x"]).2 =
      [Effect.sleepRemovalDelay,
       Effect.sigtermGroup 42,
       Effect.loadFileWrite "",
       Effect.sharedFileWrite ("Ready|Insert Disk||RFIDisk v" ++ VERSION),
       Effect.serialWrite ("D|Ready|Insert Disk||RFIDisk v" ++ VERSION ++ "|0\n"),
       Effect.sharedFileWrite "L1|L2|L3|x",
       Effect.serialWrite "D|L1|L2|L3|x|1\n",
       Effect.launch "run" 43,
       Effect.sleepLaunch] ∧
    (processEvents sC5 envC5 ["OF:x", "ON:x"]).1.activeProcess = some 43 := by
  constructor <;> decide

/-! ### Frame lemmas: no daemon operation ever stops the main loop -/

theorem launchApplication_running (s : DaemonState) (env : Env) (c l1 l2 : String) :
    (launchApplication s env c l1 l2).1.running = s.running := by
  unfold launchApplication
  dsimp only
  repeat' split
  all_goals rfl

theorem terminateStandard_running (s : DaemonState) (env : Env) :
    (terminateStandard s env).1.running = s.running := by
  unfold terminateStandard
  repeat' split
  all_goals rfl

theorem terminateApplication_running (s : DaemonState) (env : Env) (tc : TagConfig) :
    (terminateApplication s env tc).1.running = s.running := by
  unfold terminateApplication
  dsimp only
  repeat' split
  all_goals first
    | rfl
    | exact terminateStandard_running s env

theorem closeCurrentApp_running (s : DaemonState) (env : Env) :
    (closeCurrentApp s env).1.running = s.running := by
  unfold closeCurrentApp
  dsimp only
  split
  · rfl
  · simp [terminateApplication_running]

theorem recoverAfterDisconnection_running (s : DaemonState) (env : Env) :
    (recoverAfterDisconnection s env).1.running = s.running := by
  unfold recoverAfterDisconnection
  dsimp only
  repeat' split
  all_goals simp [sendDisplayCommand_state]

theorem connectSerial_running (s : DaemonState) (env : Env) :
    (connectSerial s env).2.1.running = s.running := by
  unfold connectSerial createSharedFiles
  dsimp only
  repeat' split
  all_goals simp [recoverAfterDisconnection_running]

theorem reconnectSerial_running (s : DaemonState) (env : Env) :
    (reconnectSerial s env).2.1.running = s.running := by
  unfold reconnectSerial
  dsimp only
  split
  · rfl
  · exact connectSerial_running _ env

theorem handleKnownTag_running (s : DaemonState) (env : Env) (tagId : String)
    (tc : TagConfig) :
    (handleKnownTag s env tagId tc).1.running = s.running := by
  unfold handleKnownTag writeLoadCommand
  dsimp only
  repeat' split
  all_goals
    simp [sendDisplayCommand_state, closeCurrentApp_running, launchApplication_running]

theorem handleUnknownTag_running (s : DaemonState) (env : Env) (tagId : String) :
    (handleUnknownTag s env tagId).1.running = s.running := by
  unfold handleUnknownTag
  dsimp only
  repeat' split
  all_goals simp [sendDisplayCommand_state]

theorem handleInsert_running (s : DaemonState) (env : Env) (tagId : String) :
    (handleInsert s env tagId).1.running = s.running := by
  unfold handleInsert
  dsimp only
  repeat' split
  all_goals
    first
      | rfl
      | simp [handleKnownTag_running, handleUnknownTag_running]

theorem handleRemove_running (s : DaemonState) (env : Env) (tagId : String) :
    (handleRemove s env tagId).1.running = s.running := by
  unfold handleRemove clearLoadCommand
  dsimp only
  repeat' split
  all_goals simp [sendDisplayCommand_state, closeCurrentApp_running]

theorem processSerialData_running (s : DaemonState) (env : Env) (d : String) :
    (processSerialData s env d).1.running = s.running := by
  unfold processSerialData
  repeat' split
  all_goals
    first
      | rfl
      | simp [handleInsert_running, handleRemove_running]

theorem readSerial_running (s : DaemonState) (env : Env) :
    (readSerial s env).2.1.running = s.running := by
  unfold readSerial
  dsimp only
  repeat' split
  all_goals simp [reconnectSerial_running]

theorem livenessCheck_running (s : DaemonState) (env : Env) :
    (livenessCheck s env).running = s.running := by
  unfold livenessCheck
  dsimp only
  repeat' split
  all_goals rfl

theorem loadCheckStep_running (s : DaemonState) (env : Env) :
    (loadCheckStep s env).1.running = s.running := by
  unfold loadCheckStep checkLoadCommand
  dsimp only
  repeat' split
  all_goals simp_all [launchApplication_running]

/-- One loop iteration never flips `running`: nothing inside the loop
body of `run` exits the daemon. -/
theorem runStep_running (s : DaemonState) (env : Env) :
    (runStep s env).1.running = s.running := by
  unfold runStep
  dsimp only
  split
  · rfl
  · split <;>
      simp [loadCheckStep_running, livenessCheck_running,
        processSerialData_running, readSerial_running]

/-! ### Claim C4 — serial failure handling -/

/-- Counterexample to C4 as stated: with the error count already at 5, a
further failure makes `reconnect_serial` give up (it returns failure and
stops attempting to connect), yet the daemon does not exit — `running`
stays true and the main loop keeps iterating (here through two further
whole iterations). The loop body has no exit path for serial give-up:
`read_serial` just returns None each cycle. -/
theorem reconnect_giveup_does_not_exit_cex :
    (reconnectSerial sC4 envC4).1 = false ∧
    (runStep sC4 envC4).1.running = true ∧
    (runStep (runStep sC4 envC4).1 envC4).1.running = true ∧
    (runStep sC4 envC4).1.serialErrorCount = 6 := by
  refine ⟨by decide, by decide, by decide, by decide⟩

/-- Claim C4 as amended: every reconnect attempt increments
`serial_error_count`; once the incremented count exceeds 5 the operation
gives up — it returns failure without touching the port, and every later
attempt fails as well, so the give-up is permanent — but the daemon does
not exit: the main loop keeps running. While the incremented count is at
most 5 it closes the handle, sleeps 2 seconds and retries `connect`. -/
theorem reconnect_error_handling (s : DaemonState) (env env2 : Env) :
    (s.maxSerialErrors < s.serialErrorCount + 1 →
      reconnectSerial s env =
        (false,
         { s with serialErrorCount := s.serialErrorCount + 1, reconnecting := true },
         [])) ∧
    (s.maxSerialErrors < s.serialErrorCount + 1 →
      (reconnectSerial (reconnectSerial s env).2.1 env2).1 = false) ∧
    (s.serialErrorCount + 1 ≤ s.maxSerialErrors →
      reconnectSerial s env =
        (let sClosed : DaemonState :=
          { s with serialErrorCount := s.serialErrorCount + 1,
                   reconnecting := true, serialConn := none }
         ((connectSerial sClosed env).1, (connectSerial sClosed env).2.1,
          Effect.sleepReconnectBackoff :: (connectSerial sClosed env).2.2))) ∧
    (s.running = true → (runStep s env).1.running = true) := by
  refine ⟨fun h => ?_, fun h => ?_, fun h => ?_, fun h => ?_⟩
  · unfold reconnectSerial
    dsimp only
    rw [if_pos h]
  · unfold reconnectSerial
    dsimp only
    rw [if_pos h]
    dsimp only
    rw [if_pos (by omega)]
  · unfold reconnectSerial
    dsimp only
    rw [if_neg (by omega)]
  · rw [runStep_running, h]

/-- Witness for the amended C4: the give-up shape at count 5, and the
loop surviving it. -/
theorem reconnect_error_handling_witness :
    reconnectSerial sC4 envC4 =
      (false, { sC4 with serialErrorCount := 6, reconnecting := true }, []) ∧
    (runStep sC4 envC4).1.running = true :=
  ⟨(reconnect_error_handling sC4 envC4 envC4).1 (by decide),
   (reconnect_error_handling sC4 envC4 envC4).2.2.2 rfl⟩

/-- Recovery never touches the load file. -/
theorem recoverAfterDisconnection_loadFile (s : DaemonState) (env : Env) :
    (recoverAfterDisconnection s env).1.loadFile = s.loadFile := by
  unfold recoverAfterDisconnection
  dsimp only
  repeat' split
  all_goals simp [sendDisplayCommand_state]

/-- With a truthy active tag whose process the daemon owns, recovery
keeps `active_tag_id` unchanged (whether or not the reloaded registry
still has the entry). -/
theorem recoverAfterDisconnection_activeTag_owned (s : DaemonState) (env : Env)
    (h : (optStrTruthy s.activeTag && s.appLaunchedByUs) = true) :
    (recoverAfterDisconnection s env).1.activeTag = s.activeTag := by
  unfold recoverAfterDisconnection
  dsimp only
  rw [if_pos h]
  split
  all_goals simp [sendDisplayCommand_state]

/-! ### Claim C1 — silent recovery after reconnect -/

/-- Claim C1: with a healthy link, recovery after a reconnect behaves as
follows. If a (truthy) active tag exists whose process the daemon
launched and the reloaded registry still holds the tag: the registry is
reloaded and exactly the tag's stored display lines are re-published
with a recomputed icon — one shared-file write plus one serial display
write, zero notification calls, zero launch calls. If no active tag
exists or the process was not launched by the daemon: `active_tag_id`
is cleared and the idle display is published. Moreover a successful
reconnect (`connect_serial` with `reconnecting` raised) runs the
recovery controller exactly once, after the settle sleep, and lowers
`reconnecting`. -/
theorem recovery_after_reconnect_silent (s : DaemonState) (env : Env)
    (t : String) (tagConfig : TagConfig)
    (hser : env.serialOk = true) :
    (s.activeTag = some t → t ≠ "" → s.appLaunchedByUs = true →
      lookupTag env.registry t = some tagConfig →
      recoverAfterDisconnection s env =
        ({ s with cfg := env.cfg, tags := env.registry, recoveryMode := false,
                  lastDisplayState :=
                    (tagConfig.line1, tagConfig.line2, tagConfig.line3, tagConfig.line4),
                  sharedFile := tagConfig.line1 ++ "|" ++ tagConfig.line2 ++ "|" ++
                    tagConfig.line3 ++ "|" ++ tagConfig.line4 },
         [Effect.sharedFileWrite (tagConfig.line1 ++ "|" ++ tagConfig.line2 ++ "|" ++
            tagConfig.line3 ++ "|" ++ tagConfig.line4),
          Effect.serialWrite ("D|" ++ pyReplaceChar (pyTake tagConfig.line1 20) '|' '_' ++
            "|" ++ pyReplaceChar (pyTake tagConfig.line2 20) '|' '_' ++
            "|" ++ pyReplaceChar (pyTake tagConfig.line3 14) '|' '_' ++
            "|" ++ pyReplaceChar (pyTake tagConfig.line4 14) '|' '_' ++
            "|" ++ getIconType tagConfig.command ++ "\n")]) ∧
      notifyCount (recoverAfterDisconnection s env).2 = 0 ∧
      launchCount (recoverAfterDisconnection s env).2 = 0 ∧
      serialWriteCount (recoverAfterDisconnection s env).2 = 1 ∧
      sharedWriteCount (recoverAfterDisconnection s env).2 = 1) ∧
    ((optStrTruthy s.activeTag = false ∨ s.appLaunchedByUs = false) →
      (recoverAfterDisconnection s env).1.activeTag = none ∧
      (recoverAfterDisconnection s env).1.appLaunchedByUs = false ∧
      (recoverAfterDisconnection s env).2 =
        [Effect.sharedFileWrite readyShared,
         Effect.serialWrite ("D|Ready|Insert Disk||RFIDisk v" ++ VERSION ++ "|0\n")] ∧
      notifyCount (recoverAfterDisconnection s env).2 = 0 ∧
      launchCount (recoverAfterDisconnection s env).2 = 0) ∧
    (s.reconnecting = true → env.openOk = true →
      (connectSerial s env).2.2 =
        [Effect.sharedFileWrite readyShared, Effect.loadFileWrite ""] ++
          Effect.sleepSettle ::
            (recoverAfterDisconnection
              { s with serialConn := some (), serialErrorCount := 0,
                       sharedFile := readyShared, loadFile := "" } env).2 ∧
      (connectSerial s env).2.1.reconnecting = false) := by
  refine ⟨fun htag ht happ hlook => ?_, fun h => ?_, fun hrec hopen => ?_⟩
  · have hcond : (optStrTruthy s.activeTag && s.appLaunchedByUs) = true := by
      simp [htag, optStrTruthy, ht, happ]
    have hgetD : s.activeTag.getD "" = t := by simp [htag]
    have hre : recoverAfterDisconnection s env =
        ({ s with cfg := env.cfg, tags := env.registry, recoveryMode := false,
                  lastDisplayState :=
                    (tagConfig.line1, tagConfig.line2, tagConfig.line3, tagConfig.line4),
                  sharedFile := tagConfig.line1 ++ "|" ++ tagConfig.line2 ++ "|" ++
                    tagConfig.line3 ++ "|" ++ tagConfig.line4 },
         [Effect.sharedFileWrite (tagConfig.line1 ++ "|" ++ tagConfig.line2 ++ "|" ++
            tagConfig.line3 ++ "|" ++ tagConfig.line4),
          Effect.serialWrite ("D|" ++ pyReplaceChar (pyTake tagConfig.line1 20) '|' '_' ++
            "|" ++ pyReplaceChar (pyTake tagConfig.line2 20) '|' '_' ++
            "|" ++ pyReplaceChar (pyTake tagConfig.line3 14) '|' '_' ++
            "|" ++ pyReplaceChar (pyTake tagConfig.line4 14) '|' '_' ++
            "|" ++ getIconType tagConfig.command ++ "\n")]) := by
      unfold recoverAfterDisconnection
      dsimp only
      rw [if_pos hcond, hgetD, hlook]
      unfold sendDisplayCommand
      dsimp only
      rw [if_pos hser]
    refine ⟨hre, ?_, ?_, ?_, ?_⟩ <;>
      rw [hre] <;>
      simp [notifyCount, launchCount, serialWriteCount, sharedWriteCount,
        isNotifyEffect, isLaunchEffect, isSerialWriteEffect, isSharedWriteEffect]
  · have hcond : (optStrTruthy s.activeTag && s.appLaunchedByUs) = false := by
      rcases h with h | h <;> simp [h]
    have hre : recoverAfterDisconnection s env =
        ({ s with activeTag := none, appLaunchedByUs := false, recoveryMode := false,
                  lastDisplayState := ("Ready", "Insert Disk", "", "RFIDisk v" ++ VERSION),
                  sharedFile := "Ready" ++ "|" ++ "Insert Disk" ++ "|" ++ "" ++ "|" ++
                    ("RFIDisk v" ++ VERSION) },
         [Effect.sharedFileWrite ("Ready" ++ "|" ++ "Insert Disk" ++ "|" ++ "" ++ "|" ++
            ("RFIDisk v" ++ VERSION)),
          Effect.serialWrite ("D|" ++ pyReplaceChar (pyTake "Ready" 20) '|' '_' ++
            "|" ++ pyReplaceChar (pyTake "Insert Disk" 20) '|' '_' ++
            "|" ++ pyReplaceChar (pyTake "" 14) '|' '_' ++
            "|" ++ pyReplaceChar (pyTake ("RFIDisk v" ++ VERSION) 14) '|' '_' ++
            "|" ++ "0" ++ "\n")]) := by
      unfold recoverAfterDisconnection
      dsimp only
      rw [if_neg (by simp [hcond])]
      unfold sendDisplayCommand
      dsimp only
      rw [if_pos hser]
    refine ⟨by rw [hre], by rw [hre], ?_, ?_, ?_⟩ <;>
      (rw [hre]; try rfl)
  · unfold connectSerial createSharedFiles
    dsimp only
    rw [if_pos hopen]
    try dsimp only
    rw [if_pos hrec]
    exact ⟨rfl, rfl⟩

/-- Witness for C1: recovery over a live reconnect of tag "x" with an
owned process, and link healthy. -/
theorem recovery_after_reconnect_silent_witness :
    recoverAfterDisconnection sC1 envC1 =
      ({ sC1 with cfg := envC1.cfg, tags := envC1.registry, recoveryMode := false,
                  lastDisplayState := ("L1", "L2", "L3", "x"),
                  sharedFile := "L1|L2|L3|x" },
       [Effect.sharedFileWrite "L1|L2|L3|x",
        Effect.serialWrite "D|L1|L2|L3|x|1\n"]) ∧
    notifyCount (recoverAfterDisconnection sC1 envC1).2 = 0 ∧
    launchCount (recoverAfterDisconnection sC1 envC1).2 = 0 ∧
    serialWriteCount (recoverAfterDisconnection sC1 envC1).2 = 1 := by
  have h := (recovery_after_reconnect_silent sC1 envC1 "x" cfgC1 rfl).1
    rfl (by decide) rfl (by decide)
  refine ⟨?_, h.2.1, h.2.2.1, h.2.2.2.1⟩
  rw [h.1]
  decide

/-! ### Claim C9 — connect rewrites the shared files before recovery -/

/-- Claim C9: every successful `connect_serial` — the initial connect and
every reconnect alike — rewrites the shared display file to the Ready
text and the shared load file to the empty string, and does so before
the recovery controller runs (the two file-write effects precede the
settle sleep and all recovery effects); the resulting load file is empty
(recovery never writes it), so a pending, not-yet-launched load command
does not survive a reconnect even though the active tag itself does. -/
theorem connect_rewrites_shared_files_before_recovery (s : DaemonState) (env : Env)
    (t : String) (hopen : env.openOk = true) :
    (connectSerial s env).1 = true ∧
    (connectSerial s env).2.1.loadFile = "" ∧
    (connectSerial s env).2.2 =
      [Effect.sharedFileWrite readyShared, Effect.loadFileWrite ""] ++
        (if s.reconnecting then
          Effect.sleepSettle ::
            (recoverAfterDisconnection
              { s with serialConn := some (), serialErrorCount := 0,
                       sharedFile := readyShared, loadFile := "" } env).2
         else []) ∧
    (s.reconnecting = true → s.activeTag = some t → t ≠ "" →
      s.appLaunchedByUs = true →
      (connectSerial s env).2.1.activeTag = some t) ∧
    (s.serialErrorCount + 1 ≤ s.maxSerialErrors →
      (reconnectSerial s env).2.1.loadFile = "") := by
  have hload : ∀ s' : DaemonState, (connectSerial s' env).2.1.loadFile = "" := by
    intro s'
    unfold connectSerial createSharedFiles
    dsimp only
    rw [if_pos hopen]
    try dsimp only
    split
    · rw [recoverAfterDisconnection_loadFile]
    · rfl
  refine ⟨?_, hload s, ?_, fun hrec htag ht happ => ?_, fun hcnt => ?_⟩
  · unfold connectSerial createSharedFiles
    dsimp only
    rw [if_pos hopen]
    try dsimp only
    split <;> rfl
  · unfold connectSerial createSharedFiles
    dsimp only
    rw [if_pos hopen]
    try dsimp only
    split <;> simp_all
  · unfold connectSerial createSharedFiles
    dsimp only
    rw [if_pos hopen]
    try dsimp only
    rw [if_pos hrec]
    try dsimp only
    rw [recoverAfterDisconnection_activeTag_owned]
    · exact htag
    · simp [htag, optStrTruthy, ht, happ]
  · unfold reconnectSerial
    dsimp only
    rw [if_neg (by omega)]
    exact hload _

/-- Witness for C9: a reconnect with a pending load command "run" and an
owned active tag "x"; after the successful reconnect the load file is
empty while the tag is still active. -/
theorem connect_rewrites_shared_files_before_recovery_witness :
    (connectSerial sC9 envC9).1 = true ∧
    (connectSerial sC9 envC9).2.1.loadFile = "" ∧
    (connectSerial sC9 envC9).2.1.activeTag = some "x" := by
  have h := connect_rewrites_shared_files_before_recovery sC9 envC9 "x" rfl
  exact ⟨h.1, h.2.1, h.2.2.2.1 rfl rfl (by decide) rfl⟩

/-! ### List-level lemmas about the embedded Python string operations -/

theorem pySplitL_ne_nil (l : List Char) : pySplitL l ≠ [] := by
  induction l with
  | nil => simp [pySplitL]
  | cons c cs ih =>
    unfold pySplitL
    split
    · simp
    · split <;> simp

theorem pySplitL_no_newline (l : List Char) (h : ¬ '\n' ∈ l) : pySplitL l = [l] := by
  induction l with
  | nil => rfl
  | cons c cs ih =>
    have hc : ¬ c = '\n' := fun hcn => h (by simp [hcn])
    have ih' := ih (fun hm => h (List.mem_cons_of_mem _ hm))
    unfold pySplitL
    rw [if_neg hc, ih']

theorem pySplitL_append (l r : List Char) (h : ¬ '\n' ∈ l) :
    pySplitL (l ++ '\n' :: r) = l :: pySplitL r := by
  induction l with
  | nil => simp [pySplitL]
  | cons c cs ih =>
    have hc : ¬ c = '\n' := fun hcn => h (by simp [hcn])
    have ih' := ih (fun hm => h (List.mem_cons_of_mem _ hm))
    show pySplitL (c :: (cs ++ '\n' :: r)) = (c :: cs) :: pySplitL r
    conv_lhs => rw [pySplitL]
    rw [if_neg hc, ih']

theorem dropWhile_cons_self {p : Char → Bool} {c : Char} {cs : List Char}
    (h : (c :: cs).dropWhile p = c :: cs) : p c = false := by
  rw [List.dropWhile_cons] at h
  by_cases hp : p c = true
  · rw [if_pos hp] at h
    have hlen := (List.dropWhile_sublist (l := cs) p).length_le
    rw [h] at hlen
    simp at hlen
  · simpa using hp

theorem dropWhile_of_head_false {p : Char → Bool} {c : Char} {cs : List Char}
    (h : p c = false) : (c :: cs).dropWhile p = c :: cs := by
  rw [List.dropWhile_cons, if_neg (by simp [h])]

theorem mem_pyStripL {c : Char} {l : List Char} (h : c ∈ pyStripL l) : c ∈ l := by
  unfold pyStripL at h
  rw [List.mem_reverse] at h
  have h1 := (List.dropWhile_sublist isPySpace).subset h
  rw [List.mem_reverse] at h1
  exact (List.dropWhile_sublist isPySpace).subset h1

/-- A list with no leading whitespace (head side) and no trailing
whitespace appended suffix is untouched by `pyStripL`. -/
theorem pyStripL_append_of_strip {l t : List Char}
    (h : List.dropWhile isPySpace l = l) (hne : l ≠ [])
    (ht : t.reverse.dropWhile isPySpace = t.reverse) (htne : t ≠ []) :
    pyStripL (l ++ t) = l ++ t := by
  obtain ⟨c, cs, rfl⟩ := List.exists_cons_of_ne_nil hne
  have hc : isPySpace c = false := dropWhile_cons_self h
  have htrev : t.reverse.isEmpty = false := by
    cases t with
    | nil => exact absurd rfl htne
    | cons a as => simp
  unfold pyStripL
  rw [List.cons_append, dropWhile_of_head_false hc]
  rw [show ((c :: (cs ++ t)).reverse = t.reverse ++ (cs.reverse ++ [c])) from by simp]
  rw [List.dropWhile_append, ht, htrev]
  simp

/-- From `pyStripL l = l` both the leading and the trailing whitespace
trims are trivial. -/
theorem pyStripL_eq_self_parts {l : List Char} (h : pyStripL l = l) :
    l.dropWhile isPySpace = l ∧ l.reverse.dropWhile isPySpace = l.reverse := by
  have h1 := (List.dropWhile_sublist (l := l) isPySpace).length_le
  have h2 := (List.dropWhile_sublist
    (l := (l.dropWhile isPySpace).reverse) isPySpace).length_le
  have hlen : ((l.dropWhile isPySpace).reverse.dropWhile isPySpace).reverse.length
      = l.length := by
    unfold pyStripL at h
    rw [h]
  simp only [List.length_reverse] at hlen h2
  have ha : l.dropWhile isPySpace = l :=
    (List.dropWhile_sublist isPySpace).eq_of_length (by omega)
  refine ⟨ha, ?_⟩
  have hb := (List.dropWhile_sublist
    (l := (l.dropWhile isPySpace).reverse) isPySpace).eq_of_length
    (by simp [List.length_reverse]; omega)
  rw [ha] at hb
  exact hb

/-- When `check_load_command` returns a command, the file it rewrote
holds exactly that command. -/
theorem checkLoadCommandFile_some {content cmd : String}
    (h : (checkLoadCommandFile content).1 = some cmd) :
    checkLoadCommandFile content = (some cmd, cmd) := by
  unfold checkLoadCommandFile at h ⊢
  dsimp only at h ⊢
  split at h
  · rename_i hcond
    rw [if_pos hcond]
    simp_all
  · simp at h

theorem launchApplication_loadFile (s : DaemonState) (env : Env) (c l1 l2 : String) :
    (launchApplication s env c l1 l2).1.loadFile = s.loadFile := by
  unfold launchApplication
  dsimp only
  repeat' split
  all_goals rfl

theorem launchCount_sendDesktopNotification (s : DaemonState) (env : Env)
    (title msg : String) :
    launchCount (sendDesktopNotification s env title msg) = 0 := by
  unfold sendDesktopNotification
  repeat' split
  all_goals rfl

theorem launchCount_append (a b : List Effect) :
    launchCount (a ++ b) = launchCount a + launchCount b := by
  simp [launchCount, List.filter_append]

theorem notifyCount_append (a b : List Effect) :
    notifyCount (a ++ b) = notifyCount a + notifyCount b := by
  simp [notifyCount, List.filter_append]

/-! ### Claim C7 — load-trigger poll -/

/-- Counterexample to C7 as stated: the rewrite of the load file (which
clears the TRIGGER) is not guarded by the active-tag/ownership
condition. With no tag active and the load file holding
`echo hi\nTRIGGER`, the poll still rewrites the file to `echo hi`
(clearing the trigger) while launching nothing — contradicting "only if
a tag is active and no process is currently owned for it does the
daemon invoke the Process Supervisor ... and rewrite the load file". -/
theorem load_trigger_cleared_without_active_tag_cex :
    optStrTruthy sC7.activeTag = false ∧
    sC7.loadFile = "echo hi\nTRIGGER" ∧
    (loadCheckStep sC7 envC7).1.loadFile = "echo hi" ∧
    launchCount (loadCheckStep sC7 envC7).2 = 0 := by
  refine ⟨by decide, by decide, by decide, by decide⟩

/-- Claim C7 as amended: when the poll fires and the load file carries a
command on line 1 with TRIGGER on line 2, the daemon always rewrites
the file to just the command (clearing the trigger); it launches the
command — exactly one launch call — only when additionally a truthy tag
is active, no process is owned, and the spawn succeeds, and launches
nothing otherwise. The rewritten single-line file no longer triggers,
so the launch cannot repeat on the next poll. -/
theorem load_trigger_launch_and_rewrite (s : DaemonState) (env : Env) (cmd : String)
    (hcnt : 10 ≤ s.loadCheckCounter + 1)
    (hchk : (checkLoadCommandFile s.loadFile).1 = some cmd) :
    (loadCheckStep s env).1.loadFile = cmd ∧
    ((cmd ≠ "" ∧ optStrTruthy s.activeTag = true ∧ s.appLaunchedByUs = false ∧
        env.spawnOk = true) →
      launchCount (loadCheckStep s env).2 = 1) ∧
    ((cmd = "" ∨ optStrTruthy s.activeTag = false ∨ s.appLaunchedByUs = true) →
      launchCount (loadCheckStep s env).2 = 0) ∧
    (¬ '\n' ∈ cmd.data → (checkLoadCommandFile cmd).1 = none) := by
  have hpair := checkLoadCommandFile_some hchk
  refine ⟨?_, fun hl => ?_, fun hn => ?_, fun hnl => ?_⟩
  · unfold loadCheckStep checkLoadCommand
    dsimp only
    rw [if_pos (by simpa using hcnt), hpair]
    dsimp only
    split
    · rw [launchApplication_loadFile]
    · rfl
  · obtain ⟨h1, h2, h3, h4⟩ := hl
    unfold loadCheckStep checkLoadCommand
    dsimp only
    rw [if_pos (by simpa using hcnt), hpair]
    dsimp only
    rw [if_pos (by simp [h1, h2, h3])]
    unfold launchApplication
    dsimp only
    rw [if_neg (by simp [h3]), if_pos h4]
    rw [launchCount_append, launchCount_append,
      launchCount_sendDesktopNotification]
    rfl
  · unfold loadCheckStep checkLoadCommand
    dsimp only
    rw [if_pos (by simpa using hcnt), hpair]
    dsimp only
    rw [if_neg ?hcond]
    case hcond =>
      intro hcond
      rw [Bool.and_eq_true, Bool.and_eq_true] at hcond
      rcases hn with h | h | h
      · simp [h] at hcond
      · exact absurd hcond.1.2 (by simp [h])
      · exact absurd hcond.2 (by simp [h])
    rfl
  · have hnl' : ¬ '\n' ∈ pyStripL cmd.data := fun hm => hnl (mem_pyStripL hm)
    unfold checkLoadCommandFile
    dsimp only
    rw [if_neg ?hlen]
    case hlen =>
      intro hcond
      rw [Bool.and_eq_true] at hcond
      have hsp : pySplit (pyStrip cmd) = [⟨pyStripL cmd.data⟩] := by
        unfold pySplit pyStrip
        rw [pySplitL_no_newline _ hnl']
        rfl
      rw [hsp] at hcond
      simp at hcond

/-- Witness for the amended C7: triggered file `run\nTRIGGER`, active tag
"x", nothing owned — the poll rewrites the file to `run` and launches it
exactly once; and with no active tag the same poll launches nothing. -/
theorem load_trigger_launch_and_rewrite_witness :
    ((loadCheckStep sC7b envC7).1.loadFile = "run" ∧
     launchCount (loadCheckStep sC7b envC7).2 = 1) ∧
    ((loadCheckStep sC7 envC7).1.loadFile = "echo hi" ∧
     launchCount (loadCheckStep sC7 envC7).2 = 0) := by
  have h1 := load_trigger_launch_and_rewrite sC7b envC7 "run" (by decide) (by decide)
  have h2 := load_trigger_launch_and_rewrite sC7 envC7 "echo hi" (by decide) (by decide)
  exact ⟨⟨h1.1, h1.2.1 ⟨by decide, by decide, by decide, by decide⟩⟩,
         ⟨h2.1, h2.2.2.1 (Or.inr (Or.inl (by decide)))⟩⟩

/-! ### Claim C10 — idempotence of the --load CLI -/

/-- A non-empty string has non-empty character data. -/
theorem String_data_ne_nil {s : String} (h : s ≠ "") : s.data ≠ [] :=
  fun hd => h (String.ext hd)

/-- Claim C10: for a load file holding a stripped, non-empty, single-line
command — exactly what `write_load_command` puts there — applying the
--load operation twice before the daemon polls appends two TRIGGER
lines, and `check_load_command` treats the result exactly as if --load
had been applied once: it returns the same command and rewrites the
file to just that command. -/
theorem load_cli_idempotent (cmd : String)
    (hstrip : pyStrip cmd = cmd) (hne : cmd ≠ "") (hnl : ¬ '\n' ∈ cmd.data) :
    handleLoadCommand cmd = (cmd ++ "\nTRIGGER", true) ∧
    handleLoadCommand (cmd ++ "\nTRIGGER") =
      (cmd ++ "\nTRIGGER" ++ "\nTRIGGER", true) ∧
    checkLoadCommandFile (cmd ++ "\nTRIGGER" ++ "\nTRIGGER") = (some cmd, cmd) ∧
    checkLoadCommandFile (cmd ++ "\nTRIGGER") = (some cmd, cmd) := by
  have hd : pyStripL cmd.data = cmd.data := congrArg String.data hstrip
  have hdne : cmd.data ≠ [] := String_data_ne_nil hne
  have hparts := pyStripL_eq_self_parts hd
  have hf1data : (cmd ++ "\nTRIGGER").data = cmd.data ++ '\n' :: "TRIGGER".data := by
    rw [String.data_append]
  have hf2data : (cmd ++ "\nTRIGGER" ++ "\nTRIGGER").data =
      cmd.data ++ '\n' :: ("TRIGGER".data ++ '\n' :: "TRIGGER".data) := by
    rw [String.data_append, String.data_append, List.append_assoc]
    rfl
  have hstripf1 : pyStrip (cmd ++ "\nTRIGGER") = cmd ++ "\nTRIGGER" := by
    apply String.ext
    show pyStripL (cmd ++ "\nTRIGGER").data = (cmd ++ "\nTRIGGER").data
    rw [hf1data]
    exact pyStripL_append_of_strip hparts.1 hdne (by decide) (by decide)
  have hstripf2 : pyStrip (cmd ++ "\nTRIGGER" ++ "\nTRIGGER") =
      cmd ++ "\nTRIGGER" ++ "\nTRIGGER" := by
    apply String.ext
    show pyStripL (cmd ++ "\nTRIGGER" ++ "\nTRIGGER").data =
      (cmd ++ "\nTRIGGER" ++ "\nTRIGGER").data
    rw [hf2data]
    exact pyStripL_append_of_strip hparts.1 hdne (by decide) (by decide)
  have hf1ne : cmd ++ "\nTRIGGER" ≠ "" := by
    intro hcon
    have := congrArg String.data hcon
    rw [hf1data] at this
    simp at this
  have h1 : handleLoadCommand cmd = (cmd ++ "\nTRIGGER", true) := by
    unfold handleLoadCommand
    dsimp only
    rw [hstrip, if_pos (by simp [hne])]
  have h2 : handleLoadCommand (cmd ++ "\nTRIGGER") =
      (cmd ++ "\nTRIGGER" ++ "\nTRIGGER", true) := by
    unfold handleLoadCommand
    dsimp only
    rw [hstripf1, if_pos (by simp [hf1ne])]
  have hsp1 : pySplit (pyStrip (cmd ++ "\nTRIGGER")) = [cmd, "TRIGGER"] := by
    rw [hstripf1]
    unfold pySplit
    rw [hf1data, pySplitL_append _ _ hnl, pySplitL_no_newline _ (by decide)]
    rfl
  have hsp2 : pySplit (pyStrip (cmd ++ "\nTRIGGER" ++ "\nTRIGGER")) =
      [cmd, "TRIGGER", "TRIGGER"] := by
    rw [hstripf2]
    unfold pySplit
    rw [hf2data, pySplitL_append _ _ hnl, pySplitL_append _ _ (by decide),
      pySplitL_no_newline _ (by decide)]
    rfl
  refine ⟨h1, h2, ?_, ?_⟩
  · unfold checkLoadCommandFile
    dsimp only
    rw [hsp2, if_pos (by simp)]
    simp [hstrip]
  · unfold checkLoadCommandFile
    dsimp only
    rw [hsp1, if_pos (by simp)]
    simp [hstrip]

/-- Witness for C10: the command "echo hi". -/
theorem load_cli_idempotent_witness :
    handleLoadCommand "echo hi" = ("echo hi\nTRIGGER", true) ∧
    handleLoadCommand "echo hi\nTRIGGER" = ("echo hi\nTRIGGER\nTRIGGER", true) ∧
    checkLoadCommandFile "echo hi\nTRIGGER\nTRIGGER" = (some "echo hi", "echo hi") ∧
    checkLoadCommandFile "echo hi\nTRIGGER" = (some "echo hi", "echo hi") := by
  have h := load_cli_idempotent "echo hi" (by decide) (by decide) (by decide)
  refine ⟨h.1, ?_, ?_, ?_⟩
  · have := h.2.1
    rwa [show ("echo hi" ++ "\nTRIGGER" ++ "\nTRIGGER" : String) =
        "echo hi\nTRIGGER\nTRIGGER" from rfl,
      show ("echo hi" ++ "\nTRIGGER" : String) = "echo hi\nTRIGGER" from rfl] at this
  · have := h.2.2.1
    rwa [show ("echo hi" ++ "\nTRIGGER" ++ "\nTRIGGER" : String) =
      "echo hi\nTRIGGER\nTRIGGER" from rfl] at this
  · have := h.2.2.2
    rwa [show ("echo hi" ++ "\nTRIGGER" : String) = "echo hi\nTRIGGER" from rfl] at this

/-! ### Preservation of the handle half of the ownership invariant -/

theorem ownInv_terminateStandard (s : DaemonState) (env : Env)
    (h : ownInv s) : ownInv (terminateStandard s env).1 := by
  unfold terminateStandard
  split
  · exact h
  · intro happ
    simp at happ

theorem ownInv_terminateApplication (s : DaemonState) (env : Env) (tc : TagConfig)
    (h : ownInv s) : ownInv (terminateApplication s env tc).1 := by
  unfold terminateApplication
  dsimp only
  repeat' split
  all_goals first
    | exact h
    | exact ownInv_terminateStandard s env h

theorem ownInv_closeCurrentApp (s : DaemonState) (env : Env)
    (h : ownInv s) : ownInv (closeCurrentApp s env).1 := by
  unfold closeCurrentApp
  dsimp only
  split
  · exact h
  · intro happ
    simp at happ

theorem ownInv_launchApplication (s : DaemonState) (env : Env) (c l1 l2 : String)
    (h : ownInv s) : ownInv (launchApplication s env c l1 l2).1 := by
  unfold launchApplication
  dsimp only
  repeat' split
  all_goals first
    | exact h
    | (intro _; simp)

theorem ownInv_sendDisplayCommand (s : DaemonState) (env : Env)
    (l1 l2 l3 l4 i : String) (h : ownInv s) :
    ownInv (sendDisplayCommand s env l1 l2 l3 l4 i).1 := by
  rw [sendDisplayCommand_state]
  exact h

theorem ownInv_handleKnownTag (s : DaemonState) (env : Env) (tagId : String)
    (tc : TagConfig) (h : ownInv s) : ownInv (handleKnownTag s env tagId tc).1 := by
  unfold handleKnownTag writeLoadCommand
  dsimp only
  simp only [sendDisplayCommand_state]
  repeat' split
  all_goals first
    | exact h
    | exact ownInv_closeCurrentApp _ env h
    | apply ownInv_launchApplication
  all_goals
    first
      | exact h
      | exact ownInv_closeCurrentApp _ env h

theorem ownInv_handleUnknownTag (s : DaemonState) (env : Env) (tagId : String)
    (h : ownInv s) : ownInv (handleUnknownTag s env tagId).1 := by
  unfold handleUnknownTag
  dsimp only
  simp only [sendDisplayCommand_state]
  repeat' split
  all_goals exact h

theorem ownInv_handleInsert (s : DaemonState) (env : Env) (tagId : String)
    (h : ownInv s) : ownInv (handleInsert s env tagId).1 := by
  unfold handleInsert
  dsimp only
  repeat' split
  all_goals first
    | exact h
    | exact ownInv_handleKnownTag _ env tagId _ h
    | exact ownInv_handleUnknownTag _ env tagId h

theorem ownInv_handleRemove (s : DaemonState) (env : Env) (tagId : String)
    (h : ownInv s) : ownInv (handleRemove s env tagId).1 := by
  unfold handleRemove clearLoadCommand
  dsimp only
  simp only [sendDisplayCommand_state]
  repeat' split
  all_goals first
    | exact h
    | exact ownInv_closeCurrentApp s env h

theorem ownInv_processSerialData (s : DaemonState) (env : Env) (d : String)
    (h : ownInv s) : ownInv (processSerialData s env d).1 := by
  unfold processSerialData
  repeat' split
  all_goals first
    | exact h
    | exact ownInv_handleInsert s env _ h
    | exact ownInv_handleRemove s env _ h

theorem ownInv_recoverAfterDisconnection (s : DaemonState) (env : Env)
    (h : ownInv s) : ownInv (recoverAfterDisconnection s env).1 := by
  unfold recoverAfterDisconnection
  dsimp only
  simp only [sendDisplayCommand_state]
  repeat' split
  all_goals first
    | exact h
    | (intro happ; simp at happ)

theorem ownInv_connectSerial (s : DaemonState) (env : Env)
    (h : ownInv s) : ownInv (connectSerial s env).2.1 := by
  unfold connectSerial createSharedFiles
  dsimp only
  split
  · split
    · intro happ
      exact ownInv_recoverAfterDisconnection
        { s with serialConn := some (), serialErrorCount := 0,
                 sharedFile := readyShared, loadFile := "" } env h happ
    · exact h
  · exact h

theorem ownInv_reconnectSerial (s : DaemonState) (env : Env)
    (h : ownInv s) : ownInv (reconnectSerial s env).2.1 := by
  unfold reconnectSerial
  dsimp only
  split
  · exact h
  · exact ownInv_connectSerial _ env h

theorem ownInv_readSerial (s : DaemonState) (env : Env)
    (h : ownInv s) : ownInv (readSerial s env).2.1 := by
  unfold readSerial
  dsimp only
  repeat' split
  all_goals first
    | exact h
    | exact ownInv_reconnectSerial s env h
    | exact ownInv_reconnectSerial _ env (ownInv_reconnectSerial s env h)

theorem ownInv_livenessCheck (s : DaemonState) (env : Env)
    (h : ownInv s) : ownInv (livenessCheck s env) := by
  unfold livenessCheck
  dsimp only
  repeat' split
  all_goals first
    | exact h
    | (intro happ; simp at happ)

theorem ownInv_loadCheckStep (s : DaemonState) (env : Env)
    (h : ownInv s) : ownInv (loadCheckStep s env).1 := by
  unfold loadCheckStep checkLoadCommand
  dsimp only
  repeat' split
  all_goals first
    | exact h
    | apply ownInv_launchApplication
  all_goals exact h

theorem ownInv_runStep (s : DaemonState) (env : Env)
    (h : ownInv s) : ownInv (runStep s env).1 := by
  unfold runStep
  dsimp only
  split
  · exact h
  · split
    all_goals
      apply ownInv_loadCheckStep _ env
      apply ownInv_livenessCheck _ env
      first
        | exact ownInv_processSerialData _ env _ (ownInv_readSerial s env h)
        | exact ownInv_readSerial s env h

/-! ### Preservation of the full ownership invariant -/

theorem optStrTruthy_ne_none {o : Option String} (h : optStrTruthy o = true) :
    o ≠ none := by
  cases o <;> simp [optStrTruthy] at h ⊢

theorem launchApplication_activeTag (s : DaemonState) (env : Env) (c l1 l2 : String) :
    (launchApplication s env c l1 l2).1.activeTag = s.activeTag := by
  unfold launchApplication
  dsimp only
  repeat' split
  all_goals rfl

theorem closeCurrentApp_app_false (s : DaemonState) (env : Env)
    (h : optStrTruthy s.activeTag = true) :
    (closeCurrentApp s env).1.appLaunchedByUs = false := by
  unfold closeCurrentApp
  dsimp only
  rw [if_neg (by simp [h])]

theorem handleKnownTag_activeTag (s : DaemonState) (env : Env) (tagId : String)
    (tc : TagConfig) :
    (handleKnownTag s env tagId tc).1.activeTag = some tagId := by
  unfold handleKnownTag writeLoadCommand
  dsimp only
  simp only [sendDisplayCommand_state]
  repeat' split
  all_goals first
    | rfl
    | rw [launchApplication_activeTag]

theorem handleUnknownTag_activeTag (s : DaemonState) (env : Env) (tagId : String) :
    (handleUnknownTag s env tagId).1.activeTag = some tagId := by
  unfold handleUnknownTag
  dsimp only
  simp only [sendDisplayCommand_state]
  repeat' split
  all_goals rfl

theorem launchInv_launchApplication (s : DaemonState) (env : Env) (c l1 l2 : String)
    (htag : s.activeTag ≠ none) (h : launchInv s) :
    launchInv (launchApplication s env c l1 l2).1 := by
  unfold launchApplication
  dsimp only
  repeat' split
  all_goals first
    | exact h
    | (intro _; exact ⟨by simp, htag⟩)

theorem launchInv_handleKnownTag (s : DaemonState) (env : Env) (tagId : String)
    (tc : TagConfig) (h : launchInv s) :
    launchInv (handleKnownTag s env tagId tc).1 := by
  intro happ
  refine ⟨ownInv_handleKnownTag s env tagId tc (fun ha => (h ha).1) happ, ?_⟩
  rw [handleKnownTag_activeTag]
  simp

theorem launchInv_handleUnknownTag (s : DaemonState) (env : Env) (tagId : String)
    (h : launchInv s) : launchInv (handleUnknownTag s env tagId).1 := by
  intro happ
  refine ⟨ownInv_handleUnknownTag s env tagId (fun ha => (h ha).1) happ, ?_⟩
  rw [handleUnknownTag_activeTag]
  simp

theorem launchInv_handleInsert (s : DaemonState) (env : Env) (tagId : String)
    (h : launchInv s) : launchInv (handleInsert s env tagId).1 := by
  unfold handleInsert
  dsimp only
  repeat' split
  all_goals first
    | exact h
    | exact launchInv_handleKnownTag _ env tagId _ h
    | exact launchInv_handleUnknownTag _ env tagId h

theorem launchInv_handleRemove (s : DaemonState) (env : Env) (tagId : String)
    (h : launchInv s) (htag : s.activeTag ≠ some "") :
    launchInv (handleRemove s env tagId).1 := by
  unfold handleRemove clearLoadCommand
  dsimp only
  simp only [sendDisplayCommand_state]
  split
  · rename_i hguard
    split
    · intro happ
      have htruthy : optStrTruthy s.activeTag = true := by
        rw [← hguard]
        by_cases hemp : tagId = ""
        · exfalso
          apply htag
          rw [← hguard, hemp]
        · simp [optStrTruthy, hemp]
      have happ' : (closeCurrentApp s env).1.appLaunchedByUs = true := happ
      rw [closeCurrentApp_app_false s env htruthy] at happ'
      simp at happ'
    · exact h
  · exact h

theorem launchInv_processSerialData (s : DaemonState) (env : Env) (d : String)
    (h : launchInv s) (htag : s.activeTag ≠ some "") :
    launchInv (processSerialData s env d).1 := by
  unfold processSerialData
  repeat' split
  all_goals first
    | exact h
    | exact launchInv_handleInsert s env _ h
    | exact launchInv_handleRemove s env _ h htag

theorem launchInv_recoverAfterDisconnection (s : DaemonState) (env : Env)
    (h : launchInv s) : launchInv (recoverAfterDisconnection s env).1 := by
  unfold recoverAfterDisconnection
  dsimp only
  simp only [sendDisplayCommand_state]
  repeat' split
  all_goals first
    | exact h
    | (intro happ; simp at happ)

theorem launchInv_terminateStandard (s : DaemonState) (env : Env)
    (h : launchInv s) : launchInv (terminateStandard s env).1 := by
  unfold terminateStandard
  split
  · exact h
  · intro happ
    simp at happ

theorem launchInv_terminateApplication (s : DaemonState) (env : Env) (tc : TagConfig)
    (h : launchInv s) : launchInv (terminateApplication s env tc).1 := by
  unfold terminateApplication
  dsimp only
  repeat' split
  all_goals first
    | exact h
    | exact launchInv_terminateStandard s env h

theorem launchInv_livenessCheck (s : DaemonState) (env : Env)
    (h : launchInv s) : launchInv (livenessCheck s env) := by
  unfold livenessCheck
  dsimp only
  repeat' split
  all_goals first
    | exact h
    | (intro happ; simp at happ)

theorem launchInv_checkLoadCommand (s : DaemonState) (h : launchInv s) :
    launchInv (checkLoadCommand s).2.1 := by
  unfold checkLoadCommand
  dsimp only
  split <;> exact h

theorem launchInv_loadCheckStep (s : DaemonState) (env : Env)
    (h : launchInv s) : launchInv (loadCheckStep s env).1 := by
  unfold loadCheckStep
  dsimp only
  split
  · split
    · split
      · rename_i hcond
        apply launchInv_launchApplication
        · rw [Bool.and_eq_true, Bool.and_eq_true] at hcond
          exact optStrTruthy_ne_none hcond.1.2
        · exact launchInv_checkLoadCommand _ h
      · exact launchInv_checkLoadCommand _ h
    · exact launchInv_checkLoadCommand _ h
  · exact h

theorem launchInv_connectSerial (s : DaemonState) (env : Env)
    (h : launchInv s) : launchInv (connectSerial s env).2.1 := by
  unfold connectSerial createSharedFiles
  dsimp only
  split
  · split
    · intro happ
      exact launchInv_recoverAfterDisconnection
        { s with serialConn := some (), serialErrorCount := 0,
                 sharedFile := readyShared, loadFile := "" } env h happ
    · exact h
  · exact h

theorem launchInv_reconnectSerial (s : DaemonState) (env : Env)
    (h : launchInv s) : launchInv (reconnectSerial s env).2.1 := by
  unfold reconnectSerial
  dsimp only
  split
  · exact h
  · exact launchInv_connectSerial _ env h

theorem launchInv_readSerial (s : DaemonState) (env : Env)
    (h : launchInv s) : launchInv (readSerial s env).2.1 := by
  unfold readSerial
  dsimp only
  repeat' split
  all_goals first
    | exact h
    | exact launchInv_reconnectSerial s env h
    | exact launchInv_reconnectSerial _ env (launchInv_reconnectSerial s env h)

/-- Recovery either keeps the active tag or clears it. -/
theorem recoverAfterDisconnection_activeTag_cases (s : DaemonState) (env : Env) :
    (recoverAfterDisconnection s env).1.activeTag = s.activeTag ∨
    (recoverAfterDisconnection s env).1.activeTag = none := by
  unfold recoverAfterDisconnection
  dsimp only
  simp only [sendDisplayCommand_state]
  repeat' split
  all_goals simp

/-- Connect either keeps the active tag or clears it (through recovery). -/
theorem connectSerial_activeTag_cases (s : DaemonState) (env : Env) :
    (connectSerial s env).2.1.activeTag = s.activeTag ∨
    (connectSerial s env).2.1.activeTag = none := by
  unfold connectSerial createSharedFiles
  dsimp only
  split
  · split
    · exact recoverAfterDisconnection_activeTag_cases
        { s with serialConn := some (), serialErrorCount := 0,
                 sharedFile := readyShared, loadFile := "" } env
    · exact Or.inl rfl
  · exact Or.inl rfl

theorem reconnectSerial_activeTag_cases (s : DaemonState) (env : Env) :
    (reconnectSerial s env).2.1.activeTag = s.activeTag ∨
    (reconnectSerial s env).2.1.activeTag = none := by
  unfold reconnectSerial
  dsimp only
  split
  · exact Or.inl rfl
  · exact connectSerial_activeTag_cases _ env

theorem readSerial_activeTag_cases (s : DaemonState) (env : Env) :
    (readSerial s env).2.1.activeTag = s.activeTag ∨
    (readSerial s env).2.1.activeTag = none := by
  unfold readSerial
  dsimp only
  repeat' split
  all_goals first
    | exact Or.inl rfl
    | exact reconnectSerial_activeTag_cases s env
    | skip
  all_goals
    rcases reconnectSerial_activeTag_cases (reconnectSerial s env).2.1 env with h2 | h2
  · rw [h2]
    exact reconnectSerial_activeTag_cases s env
  · rw [h2]
    simp

/-- One loop iteration preserves the full invariant provided the active
tag is not the empty string. -/
theorem launchInv_runStep (s : DaemonState) (env : Env)
    (h : launchInv s) (htag : s.activeTag ≠ some "") :
    launchInv (runStep s env).1 := by
  unfold runStep
  dsimp only
  split
  · exact h
  · have hr := launchInv_readSerial s env h
    have hrt : (readSerial s env).2.1.activeTag ≠ some "" := by
      rcases readSerial_activeTag_cases s env with hc | hc <;> rw [hc] <;> simp_all
    split
    · exact launchInv_loadCheckStep _ env (launchInv_livenessCheck _ env
        (launchInv_processSerialData _ env _ hr hrt))
    · exact launchInv_loadCheckStep _ env (launchInv_livenessCheck _ env hr)

/-! ### Claim C8 — ownership invariant -/

/-- Counterexample to C8 as stated: the removal handler breaks the
invariant for the empty-string tag id. In the state reached by inserting
the serial line "ON:" when the registry maps the empty id to a runnable
command (the daemon owns pid 43 for active tag "", and the invariant
holds, since some "" is not None), processing "OF:" clears
`active_tag_id` but leaves `app_launched_by_us` true and the handle set:
`close_current_app` treats the empty (falsy) tag id as "no active tag"
and returns without terminating or clearing. -/
theorem invariant_broken_by_empty_tag_remove_cex :
    launchInv sC8 ∧
    ¬ launchInv (processSerialData sC8 envC8 "OF:").1 ∧
    (processSerialData sC8 envC8 "OF:").1.appLaunchedByUs = true ∧
    (processSerialData sC8 envC8 "OF:").1.activeTag = none ∧
    (processSerialData sC8 envC8 "OF:").1.activeProcess = some 43 := by
  refine ⟨by decide, by decide, by decide, by decide, by decide⟩

/-- Claim C8 as amended: the initial state satisfies the invariant; the
handle half (`app_launched_by_us → process_handle ≠ None`) is preserved
by every operation and by the whole loop iteration unconditionally; the
full invariant (also `active_tag_id ≠ None`) is preserved by terminate,
recovery, the liveness check, the load poll, and — provided the active
tag id is not the empty string, the one case the removal handler's
falsy-tag guard mishandles — by serial-event processing and the whole
loop iteration. -/
theorem launch_flag_invariant_preserved (s : DaemonState) (env : Env)
    (d : String) (tc : TagConfig) :
    launchInv initialState ∧
    (ownInv s → ownInv (runStep s env).1) ∧
    (ownInv s → ownInv (processSerialData s env d).1) ∧
    (launchInv s → launchInv (terminateApplication s env tc).1) ∧
    (launchInv s → launchInv (recoverAfterDisconnection s env).1) ∧
    (launchInv s → launchInv (livenessCheck s env)) ∧
    (launchInv s → launchInv (loadCheckStep s env).1) ∧
    (launchInv s → s.activeTag ≠ some "" → launchInv (processSerialData s env d).1) ∧
    (launchInv s → s.activeTag ≠ some "" → launchInv (runStep s env).1) := by
  refine ⟨by decide, ownInv_runStep s env, ownInv_processSerialData s env d,
    launchInv_terminateApplication s env tc,
    launchInv_recoverAfterDisconnection s env,
    launchInv_livenessCheck s env,
    launchInv_loadCheckStep s env,
    launchInv_processSerialData s env d,
    launchInv_runStep s env⟩

/-- Witness for the amended C8: a concrete loop iteration from an
invariant-satisfying owned state (tag "x", pid 42) preserves both the
handle half and the full invariant. -/
theorem launch_flag_invariant_preserved_witness :
    launchInv initialState ∧
    launchInv (runStep sC3 baseEnv).1 ∧
    ownInv (runStep sC3 baseEnv).1 :=
  ⟨(launch_flag_invariant_preserved sC3 baseEnv "ON:x" emptyTagConfig).1,
   (launch_flag_invariant_preserved sC3 baseEnv "ON:x" emptyTagConfig).2.2.2.2.2.2.2.2
     (by decide) (by decide),
   (launch_flag_invariant_preserved sC3 baseEnv "ON:x" emptyTagConfig).2.1
     (by decide)⟩
